import Mathlib

/-!
Verification of the polymorphic dispatch core of the repository
(`src/day-11/02_code/*`): the `Shape` / `Oval` / `Circle` hierarchy, virtual
and static dispatch, object slicing, and the three storage strategies
(by-value array, owning-pointer array, shared-ownership array).

The driver files (`main.cpp` of each demo) are in the repository; the class
bodies live in `shape.h` / `oval.h` / `circle.h`, which the drivers include
but whose text is not present in the repository snapshot.  The classes are
therefore modelled from the specification and from the outputs the drivers
document next to every call (e.g. line 26 of
`01_StaticBindingWithInheritance/main.cpp`:
`Circle::draw() called. Drawing Circle1 with radius : 3.3`).

Dimensions (`double` in the source) are modelled as rationals: the core never
computes with the radii, it only stores and prints them, so rational values
represent the demo inputs (3.3, 2.0, 3.5, ...) exactly.
-/

/-- Fractional digits of `rem / den`, most significant first, `k` digits. -/
def fracDigits : Nat → Nat → Nat → List Nat
  | 0, _, _ => []
  | k + 1, rem, den => (rem * 10) / den :: fracDigits k ((rem * 10) % den) den

/-- Modelled from the spec: the text-output collaborator's rendering of a
positive dimension, matching the default `iostream` rendering documented in
the drivers' comments (`2.0` prints as `2`, `3.3` as `3.3`, `3.5` as `3.5`):
integer part, then fractional digits with trailing zeros dropped, and no
decimal point when the fraction is zero. -/
def showDim (q : ℚ) : String :=
  let n := q.num.natAbs
  let d := q.den
  let ip := n / d
  let ds := (fracDigits 6 (n % d) d).reverse.dropWhile (· = 0) |>.reverse
  let s := toString ip ++ (if ds.isEmpty then "" else "." ++ String.join (ds.map toString))
  if q.num < 0 then "-" ++ s else s

/-- The static types of the hierarchy: the three class names a handle can be
declared with (`Shape`, `Oval`, `Circle`). -/
inductive Ty where
  | shape
  | oval
  | circle
deriving DecidableEq, Repr

/-- Modelled from the spec: a fully-constructed object of the hierarchy,
identified by its most-derived (dynamic) type and its fields.  `Shape` holds
`name`; `Oval` adds `xRadius`/`yRadius` (`m_x_radius`/`m_y_radius` in the
source); `Circle` adds no members of its own and stores a single radius, its
constructor setting both inherited radii equal to it. -/
inductive Obj where
  | shape (name : String)
  | oval (name : String) (xRadius yRadius : ℚ)
  | circle (name : String) (radius : ℚ)
deriving DecidableEq, Repr

/-- Dynamic (most-derived) type of an object. -/
def Obj.tag : Obj → Ty
  | .shape _ => .shape
  | .oval _ _ _ => .oval
  | .circle _ _ => .circle

/-- The `name` field of the `Shape` subobject. -/
def Obj.name : Obj → String
  | .shape n => n
  | .oval n _ _ => n
  | .circle n _ => n

/-- The `m_x_radius` field of the `Oval` subobject, when there is one.
A `Circle`'s constructor stored its single radius there. -/
def Obj.xRadius : Obj → Option ℚ
  | .shape _ => none
  | .oval _ x _ => some x
  | .circle _ r => some r

/-- The `m_y_radius` field of the `Oval` subobject, when there is one. -/
def Obj.yRadius : Obj → Option ℚ
  | .shape _ => none
  | .oval _ _ y => some y
  | .circle _ r => some r

/-- Modelled from the spec: the text `Shape::draw` emits. -/
def shapeDrawOutput (n : String) : String :=
  "Shape::draw() called. Drawing " ++ n

/-- Modelled from the spec: the text `Oval::draw` emits. -/
def ovalDrawOutput (n : String) (x y : ℚ) : String :=
  "Oval::draw() called. Drawing " ++ n ++ " with m_x_radius : " ++ showDim x
    ++ " and m_y_radius : " ++ showDim y

/-- Modelled from the spec: the text `Circle::draw` emits. -/
def circleDrawOutput (n : String) (r : ℚ) : String :=
  "Circle::draw() called. Drawing " ++ n ++ " with radius : " ++ showDim r

/-- Modelled from the spec: a virtual `draw()` call.  The vtable entry of the
object's dynamic type decides which override runs, so the result depends only
on the object itself. -/
def Obj.draw : Obj → String
  | .shape n => shapeDrawOutput n
  | .oval n x y => ovalDrawOutput n x y
  | .circle n r => circleDrawOutput n r

/-- Modelled from the spec: a non-virtual (statically bound) `draw()` call, as
in `01_StaticBindingWithInheritance`: the handle's declared type decides which
implementation runs, reading the corresponding subobject's fields.  `none`
when the object has no subobject of the requested type (a configuration the
type system of the source rules out). -/
def drawStatic : Ty → Obj → Option String
  | .shape, o => some (shapeDrawOutput o.name)
  | .oval, o =>
    match o.xRadius, o.yRadius with
    | some x, some y => some (ovalDrawOutput o.name x y)
    | _, _ => none
  | .circle, o =>
    match o.xRadius with
    | some r => some (circleDrawOutput o.name r)
    | none => none

/-- A non-owning handle (raw pointer or reference): a declared static type and
the object it refers to. -/
structure Handle where
  static : Ty
  obj : Obj
deriving DecidableEq, Repr

/-- Virtual dispatch through a handle: the static type is ignored. -/
def Handle.drawV (h : Handle) : String :=
  h.obj.draw

/-- Static dispatch through a handle (non-virtual `draw`). -/
def Handle.drawS (h : Handle) : Option String :=
  drawStatic h.static h.obj

/-- `draw_shape` from `02_PolymorphismWithVirtualFunctions/main.cpp`: takes a
`Shape *` and calls `draw()` through it. -/
def draw_shape (s : Handle) : String :=
  s.drawV

/-- `draw_shape_v1` from `02_PolymorphismWithVirtualFunctions/main.cpp`: takes
a `const Shape &` and calls `draw()` through it. -/
def draw_shape_v1 (s_r : Handle) : String :=
  s_r.drawV

/-- Copy-construction of a `Shape` from any object of the hierarchy
(`Shape shape = circle1;` or insertion into a `Shape`-typed array slot):
only the `Shape` subobject — the `name` — is copied.  Total: the copy always
succeeds, there is no error path. -/
def sliceToShape (o : Obj) : Obj :=
  .shape o.name

/-- The by-value storage strategy (`Shape shapes1[]{...}`): every inserted
element is sliced to the base layout. -/
def valueStore (os : List Obj) : List Obj :=
  os.map sliceToShape

/-- The raw-pointer storage strategy (`Shape *shapes3[]{...}`): each slot is a
base-typed handle to the original object. -/
def pointerStore (os : List Obj) : List Handle :=
  os.map fun o => ⟨Ty.shape, o⟩

/-- Iterating a handle collection and calling `draw()` through each element. -/
def drawAllV (hs : List Handle) : List String :=
  hs.map Handle.drawV

/-- The spec-side statement of identity preservation: each instance's own
most-derived variant's output (`Circle`'s output for a `Circle`, `Oval`'s for
an `Oval`), written out per variant to compare dispatch against. -/
def mostDerivedOutput : Obj → String
  | .shape n => shapeDrawOutput n
  | .oval n x y => ovalDrawOutput n x y
  | .circle n r => circleDrawOutput n r

/-- Prefix test on character lists. -/
def charsStartWith : List Char → List Char → Bool
  | [], _ => true
  | _ :: _, [] => false
  | a :: as, b :: bs => a == b && charsStartWith as bs

/-- Whether `p` is a prefix of `s`. -/
def strStartsWith (p s : String) : Bool :=
  charsStartWith p.data s.data

/-- Whether `needle` occurs contiguously in `hay`, over character lists. -/
def containsSeq : List Char → List Char → Bool
  | pat, [] => charsStartWith pat []
  | pat, c :: rest => charsStartWith pat (c :: rest) || containsSeq pat rest

/-- Whether the output string `hay` mentions the text `needle`. -/
def mentions (needle hay : String) : Bool :=
  containsSeq needle.data hay.data

/-- The error taxonomy of the construction boundary.  The spec reserves the
name; the core never produces a value of it. -/
inductive ConstructionError where
  | invalidDimensions
deriving DecidableEq, Repr

/-- Modelled from the spec: the `Oval(x_radius, y_radius, name)` constructor.
It stores its arguments unchanged; there is no validation of the dimensions,
so the result is always `ok`. -/
def Oval.construct (x y : ℚ) (n : String) : Except ConstructionError Obj :=
  .ok (.oval n x y)

/-- Modelled from the spec: the `Circle(radius, name)` constructor.  It passes
`radius` for both inherited radii and performs no validation. -/
def Circle.construct (r : ℚ) (n : String) : Except ConstructionError Obj :=
  .ok (.circle n r)

/-- Modelled from the spec: the explicit, fallible downcast of a base handle
to the `Oval` contract (the core itself offers no such operation; the spec's
`InvalidDowncast` condition says an attempt must fail with an empty result
rather than reinterpret the stored instance).  It succeeds exactly when the
dynamic type has an `Oval` subobject, returning the stored instance itself. -/
def downcastToOval : Obj → Option Obj
  | o@(.oval _ _ _) => some o
  | o@(.circle _ _) => some o
  | .shape _ => none

/-- Modelled from the spec: the explicit, fallible downcast of a handle to the
`Circle` contract. -/
def downcastToCircle : Obj → Option Obj
  | o@(.circle _ _) => some o
  | .oval _ _ _ => none
  | .shape _ => none

/-- An exclusive-owning slot (`std::unique_ptr<Shape>`-style): the identity of
the heap allocation it owns and the object stored there. -/
structure UniqueHandle where
  id : Nat
  obj : Obj
deriving DecidableEq, Repr

/-- Virtual `draw()` through an exclusive-owning base handle. -/
def UniqueHandle.drawV (u : UniqueHandle) : String :=
  u.obj.draw

/-- Releasing allocation `i` from the heap (the list of live allocation ids):
fails (`none`) when `i` is not currently allocated — a double or invalid
release. -/
def releaseId (heap : List Nat) (i : Nat) : Option (List Nat) :=
  if i ∈ heap then some (heap.erase i) else none

/-- Modelled from the spec: teardown of an exclusive-owning collection.  Slots
are drained in element order; each slot releases its allocation exactly once.
Returns the trace of release operations and the remaining heap, or `none` if
any release was a double/invalid free. -/
def teardownAll : List UniqueHandle → List Nat → Option (List Nat × List Nat)
  | [], heap => some ([], heap)
  | s :: rest, heap =>
    match releaseId heap s.id with
    | none => none
    | some heap₁ =>
      match teardownAll rest heap₁ with
      | none => none
      | some (tr, heap₂) => some (s.id :: tr, heap₂)

/-- Modelled from the spec: a shared-ownership allocation
(`std::shared_ptr`-style): the stored object and the number of handles
currently referencing it. -/
structure SharedObj where
  obj : Obj
  refs : Nat
deriving DecidableEq, Repr

/-- Releasing one referencing handle: decrements the reference count; the
instance itself is released only when the count reaches zero. -/
def SharedObj.release (s : SharedObj) : SharedObj :=
  ⟨s.obj, s.refs - 1⟩

/-- Checked dereference: the stored object while at least one handle
references it, `none` once the last handle has been released. -/
def SharedObj.deref (s : SharedObj) : Option Obj :=
  if 0 < s.refs then some s.obj else none

/-- The shared-ownership storage strategy (`std::shared_ptr<Shape> shapes4[]`):
each freshly `make_shared`-ed element starts with a single referencing
handle. -/
def sharedStore (os : List Obj) : List SharedObj :=
  os.map fun o => ⟨o, 1⟩

/-- A `const` member call with a text side channel: `draw()` run against an
output sink.  It leaves the object as it was and appends its text to the
sink. -/
def drawTo (o : Obj) (sink : List String) : Obj × List String :=
  (o, sink ++ [o.draw])

/-- The fields of an object: dynamic type tag, name, and the radii of the
`Oval` subobject when present. -/
def fieldsOf (o : Obj) : Ty × String × Option ℚ × Option ℚ :=
  (o.tag, o.name, o.xRadius, o.yRadius)

/-- `Circle circle1(3.3, "Circle1")` from the drivers. -/
def circle1 : Obj := .circle "Circle1" (mkRat 33 10)

/-- `Oval oval1(2.0, 3.5, "Oval1")` from the drivers. -/
def oval1 : Obj := .oval "Oval1" (mkRat 2 1) (mkRat 7 2)

/-- `Shape shape1("Shape1")` from the drivers. -/
def shape1 : Obj := .shape "Shape1"

theorem charsStartWith_shapeDrawOutput (n : String) :
    strStartsWith "Shape::" (shapeDrawOutput n) = true := rfl

theorem charsStartWith_shape_oval (m : String) (x y : ℚ) :
    strStartsWith "Shape::" (ovalDrawOutput m x y) = false := rfl

theorem charsStartWith_shape_circle (m : String) (r : ℚ) :
    strStartsWith "Shape::" (circleDrawOutput m r) = false := rfl

/-- The base output is never an `Oval` output, whatever the fields. -/
theorem shapeDrawOutput_ne_ovalDrawOutput (n m : String) (x y : ℚ) :
    shapeDrawOutput n ≠ ovalDrawOutput m x y := by
  intro h
  have h1 : strStartsWith "Shape::" (shapeDrawOutput n) = true :=
    charsStartWith_shapeDrawOutput n
  rw [h] at h1
  have h2 : strStartsWith "Shape::" (ovalDrawOutput m x y) = false :=
    charsStartWith_shape_oval m x y
  rw [h1] at h2
  cases h2

/-- The base output is never a `Circle` output, whatever the fields. -/
theorem shapeDrawOutput_ne_circleDrawOutput (n m : String) (r : ℚ) :
    shapeDrawOutput n ≠ circleDrawOutput m r := by
  intro h
  have h1 : strStartsWith "Shape::" (shapeDrawOutput n) = true :=
    charsStartWith_shapeDrawOutput n
  rw [h] at h1
  have h2 : strStartsWith "Shape::" (circleDrawOutput m r) = false :=
    charsStartWith_shape_circle m r
  rw [h1] at h2
  cases h2

/-- Virtual dispatch agrees with the spec-side per-variant output table. -/
theorem draw_eq_mostDerivedOutput (o : Obj) : o.draw = mostDerivedOutput o := by
  cases o <;> rfl

/-- C1: copying any instance of the hierarchy into a base-typed value slot (a
`Shape`-typed array element or `Shape` variable) always succeeds, yields the
base `Shape` subobject, and `draw()` through that slot produces the base
variant's output for the stored name — never an `Oval` or `Circle` output,
whatever fields those would carry; over the whole by-value store, every
element draws as the base variant. -/
theorem slicing_yields_base_output (o : Obj) :
    sliceToShape o = Obj.shape o.name
    ∧ Obj.draw (sliceToShape o) = shapeDrawOutput o.name
    ∧ (∀ m x y, Obj.draw (sliceToShape o) ≠ ovalDrawOutput m x y)
    ∧ (∀ m r, Obj.draw (sliceToShape o) ≠ circleDrawOutput m r)
    ∧ (∀ os : List Obj,
        (valueStore os).map Obj.draw = os.map fun q => shapeDrawOutput q.name) := by
  refine ⟨rfl, rfl, ?_, ?_, ?_⟩
  · intro m x y
    exact shapeDrawOutput_ne_ovalDrawOutput o.name m x y
  · intro m r
    exact shapeDrawOutput_ne_circleDrawOutput o.name m r
  · intro os
    simp only [valueStore, List.map_map]
    rfl

/-- Witness for C1 at the driver's `circle1`. -/
theorem slicing_yields_base_output_witness :
    Obj.draw (sliceToShape circle1) = shapeDrawOutput "Circle1"
    ∧ Obj.draw (sliceToShape circle1)
        ≠ ovalDrawOutput "Oval1" (mkRat 2 1) (mkRat 7 2)
    ∧ Obj.draw (sliceToShape circle1) ≠ circleDrawOutput "Circle1" (mkRat 33 10) :=
  ⟨(slicing_yields_base_output circle1).2.1,
   (slicing_yields_base_output circle1).2.2.1 "Oval1" (mkRat 2 1) (mkRat 7 2),
   (slicing_yields_base_output circle1).2.2.2.1 "Circle1" (mkRat 33 10)⟩

/-- C2: through an exclusive-owning or shared-owning base-typed handle,
`draw()` always yields the stored instance's own most-derived variant's
output, whatever the handle's static type, and the whole pointer- and
shared-storage collections draw element-wise as the most-derived table. -/
theorem owning_handles_preserve_identity :
    (∀ t o, Handle.drawV ⟨t, o⟩ = mostDerivedOutput o)
    ∧ (∀ u : UniqueHandle, u.drawV = mostDerivedOutput u.obj)
    ∧ (∀ os : List Obj, drawAllV (pointerStore os) = os.map mostDerivedOutput)
    ∧ (∀ os : List Obj,
        (sharedStore os).map (fun s => s.deref.map Obj.draw)
          = os.map fun o => some (mostDerivedOutput o)) := by
  refine ⟨fun t o => draw_eq_mostDerivedOutput o,
          fun u => draw_eq_mostDerivedOutput u.obj, ?_, ?_⟩
  · intro os
    simp only [drawAllV, pointerStore, List.map_map]
    rw [show (Handle.drawV ∘ fun o => Handle.mk Ty.shape o) = mostDerivedOutput from
          funext fun o => draw_eq_mostDerivedOutput o]
  · intro os
    simp only [sharedStore, List.map_map]
    rw [show ((fun s : SharedObj => s.deref.map Obj.draw) ∘ fun o => SharedObj.mk o 1)
          = (fun o => some (mostDerivedOutput o)) from
          funext fun o => by
            simp only [Function.comp, SharedObj.deref]
            rw [if_pos (by decide : (0 : Nat) < 1)]
            exact congrArg some (draw_eq_mostDerivedOutput o)]

/-- Witness for C2 at the driver's `circle1` behind an owning base handle. -/
theorem owning_handles_preserve_identity_witness :
    UniqueHandle.drawV ⟨0, circle1⟩ = mostDerivedOutput circle1 :=
  owning_handles_preserve_identity.2.1 ⟨0, circle1⟩

/-- C3: for `Circle(radius=3.3, name="Circle1")`, `draw()` through an
exclusive-owning base-typed handle mentions `Circle` and `3.3`, while through
a copied base-value slot it is exactly the generic `Shape` output for the
stored name — mentioning `Shape` and omitting `3.3`. -/
theorem circle1_scenario :
    mentions "Circle" (UniqueHandle.drawV ⟨0, circle1⟩) = true
    ∧ mentions "3.3" (UniqueHandle.drawV ⟨0, circle1⟩) = true
    ∧ Obj.draw (sliceToShape circle1) = shapeDrawOutput "Circle1"
    ∧ mentions "Shape" (Obj.draw (sliceToShape circle1)) = true
    ∧ mentions "3.3" (Obj.draw (sliceToShape circle1)) = false :=
  ⟨by decide, by decide, rfl, by decide, by decide⟩

/-- C4: a `Circle` constructed with radius `r` stores `r` in both inherited
`Oval` fields, so access through the `Oval` contract reports both radii equal
to `r` (both the field accessors and the statically bound `Oval::draw`), while
the `Circle` contract's own `draw()` presents the single radius; refinement is
one-directional: the downcast of a `Circle` to the `Oval` contract succeeds
with the instance itself, while no `Oval` downcasts to `Circle`. -/
theorem circle_refines_oval (r : ℚ) (n : String) :
    (Obj.circle n r).xRadius = some r
    ∧ (Obj.circle n r).yRadius = some r
    ∧ Handle.drawS ⟨Ty.oval, Obj.circle n r⟩ = some (ovalDrawOutput n r r)
    ∧ Obj.draw (Obj.circle n r) = circleDrawOutput n r
    ∧ downcastToOval (Obj.circle n r) = some (Obj.circle n r)
    ∧ (∀ m x y, downcastToCircle (Obj.oval m x y) = none) :=
  ⟨rfl, rfl, rfl, rfl, rfl, fun _ _ _ => rfl⟩

/-- Witness for C4 at the driver's `Circle(3.3, "Circle1")`. -/
theorem circle_refines_oval_witness :
    Handle.drawS ⟨Ty.oval, circle1⟩
        = some (ovalDrawOutput "Circle1" (mkRat 33 10) (mkRat 33 10))
    ∧ Obj.draw circle1 = circleDrawOutput "Circle1" (mkRat 33 10) :=
  ⟨(circle_refines_oval (mkRat 33 10) "Circle1").2.2.1,
   (circle_refines_oval (mkRat 33 10) "Circle1").2.2.2.1⟩

/-- C5: constructing an `Oval` or a `Circle` never produces a
`ConstructionError`: for every name and all rational dimensions — zero and
negative included — construction returns `ok` with the fields stored
unchanged. -/
theorem construction_never_fails (n : String) (x y r : ℚ) :
    Oval.construct x y n = Except.ok (Obj.oval n x y)
    ∧ Circle.construct r n = Except.ok (Obj.circle n r)
    ∧ (x ≤ 0 ∨ y ≤ 0 ∨ r ≤ 0 →
        (Oval.construct x y n).isOk = true ∧ (Circle.construct r n).isOk = true) :=
  ⟨rfl, rfl, fun _ => ⟨rfl, rfl⟩⟩

/-- Witness for C5 at non-positive dimensions. -/
theorem construction_never_fails_witness :
    ((mkRat (-1) 1 : ℚ) ≤ 0 ∨ (mkRat 0 1 : ℚ) ≤ 0 ∨ (mkRat (-33) 10 : ℚ) ≤ 0)
    ∧ (Oval.construct (mkRat (-1) 1) (mkRat 0 1) "Bad").isOk = true
    ∧ (Circle.construct (mkRat (-33) 10) "Bad").isOk = true :=
  ⟨Or.inl (by decide),
   (construction_never_fails "Bad" (mkRat (-1) 1) (mkRat 0 1) (mkRat (-33) 10)).2.2
     (Or.inl (by decide))⟩

/-- C6: treating a base-typed handle as a more-derived type fails with an
empty result rather than reinterpreting the stored instance: the downcast of a
dynamic `Shape` to `Oval` or `Circle` is `none`, the downcast of a dynamic
`Oval` to `Circle` is `none`, and whenever a downcast does succeed it returns
exactly the stored instance. -/
theorem downcast_fails_on_base :
    (∀ n, downcastToOval (Obj.shape n) = none)
    ∧ (∀ n, downcastToCircle (Obj.shape n) = none)
    ∧ (∀ n x y, downcastToCircle (Obj.oval n x y) = none)
    ∧ (∀ o o', downcastToOval o = some o' → o' = o)
    ∧ (∀ o o', downcastToCircle o = some o' → o' = o) := by
  refine ⟨fun n => rfl, fun n => rfl, fun n x y => rfl, ?_, ?_⟩
  · intro o o' h
    cases o with
    | shape n => exact Option.noConfusion h
    | oval n x y => exact (Option.some.inj h).symm
    | circle n r => exact (Option.some.inj h).symm
  · intro o o' h
    cases o with
    | shape n => exact Option.noConfusion h
    | oval n x y => exact Option.noConfusion h
    | circle n r => exact (Option.some.inj h).symm

/-- Witness for C6: a plain `Shape` refuses both downcasts, and the successful
`Circle` downcast returns the stored instance. -/
theorem downcast_fails_on_base_witness :
    downcastToOval (Obj.shape "Shape1") = none
    ∧ downcastToCircle (Obj.oval "Oval1" (mkRat 2 1) (mkRat 7 2)) = none
    ∧ circle1 = circle1 :=
  ⟨downcast_fails_on_base.1 "Shape1",
   downcast_fails_on_base.2.2.1 "Oval1" (mkRat 2 1) (mkRat 7 2),
   downcast_fails_on_base.2.2.2.1 circle1 circle1 rfl⟩

/-- C7: tearing down an exclusive-owning collection of `N` slots over a heap
of live allocations (slots owning distinct live allocations) performs exactly
the `N` release operations of the slots in element order, each succeeding —
no double release — and afterwards the heap holds exactly the allocations the
collection did not own: every owned instance is released, none twice, none
leaked. -/
theorem unique_teardown (slots : List UniqueHandle) :
    ∀ heap : List Nat, heap.Nodup → (slots.map UniqueHandle.id).Nodup →
      (∀ s ∈ slots, s.id ∈ heap) →
      ∃ heap', teardownAll slots heap = some (slots.map UniqueHandle.id, heap')
        ∧ (∀ i, i ∈ heap' ↔ i ∈ heap ∧ i ∉ slots.map UniqueHandle.id)
        ∧ heap'.Nodup := by
  induction slots with
  | nil =>
    intro heap hheap _ _
    exact ⟨heap, rfl, fun i => by simp, hheap⟩
  | cons s rest ih =>
    intro heap hheap hids hmem
    have hs : s.id ∈ heap := hmem s (List.mem_cons_self s rest)
    rw [List.map_cons] at hids
    obtain ⟨hnotin, hrest_ids⟩ := List.nodup_cons.mp hids
    have herase_nodup : (heap.erase s.id).Nodup := hheap.erase s.id
    have hmem' : ∀ s' ∈ rest, s'.id ∈ heap.erase s.id := by
      intro s' hs'
      rw [List.Nodup.mem_erase_iff hheap]
      exact ⟨fun hEq => hnotin (hEq ▸ List.mem_map_of_mem UniqueHandle.id hs'),
             hmem s' (List.mem_cons_of_mem s hs')⟩
    obtain ⟨heap', hEq, hIff, hNodup⟩ := ih (heap.erase s.id) herase_nodup hrest_ids hmem'
    refine ⟨heap', ?_, ?_, hNodup⟩
    · simp only [teardownAll, releaseId, if_pos hs, hEq, List.map_cons]
    · intro i
      rw [List.map_cons, hIff i, List.Nodup.mem_erase_iff hheap, List.mem_cons]
      tauto

/-- Witness for C7: two owned instances over a three-allocation heap. -/
theorem unique_teardown_witness :
    ∃ heap',
      teardownAll ([⟨0, circle1⟩, ⟨1, oval1⟩] : List UniqueHandle) [0, 1, 2]
          = some (([⟨0, circle1⟩, ⟨1, oval1⟩] : List UniqueHandle).map UniqueHandle.id,
                  heap')
        ∧ (∀ i, i ∈ heap' ↔ i ∈ [0, 1, 2]
            ∧ i ∉ ([⟨0, circle1⟩, ⟨1, oval1⟩] : List UniqueHandle).map UniqueHandle.id)
        ∧ heap'.Nodup :=
  unique_teardown ([⟨0, circle1⟩, ⟨1, oval1⟩] : List UniqueHandle) [0, 1, 2]
    (by decide) (by decide) (by decide)

/-- C8: an instance referenced by two shared handles survives the release of
the first handle — still dereferenceable, still dispatching to its
most-derived output — and is released exactly when the second handle is also
released; in general it stays valid while any positive number of handles
references it. -/
theorem shared_last_holder_releases (o : Obj) :
    (SharedObj.mk o 2).release.deref = some o
    ∧ (SharedObj.mk o 2).release.deref.map Obj.draw = some (mostDerivedOutput o)
    ∧ (SharedObj.mk o 2).release.release.deref = none
    ∧ (∀ k, 0 < k → (SharedObj.mk o k).deref = some o) := by
  refine ⟨rfl, congrArg some (draw_eq_mostDerivedOutput o), rfl, ?_⟩
  intro k hk
  simp [SharedObj.deref, hk]

/-- Witness for C8 at the driver's `circle1` with a single surviving handle. -/
theorem shared_last_holder_releases_witness :
    0 < 1 ∧ (SharedObj.mk circle1 1).deref = some circle1 :=
  ⟨Nat.one_pos, (shared_last_holder_releases circle1).2.2.2 1 Nat.one_pos⟩

/-- C9: `draw()` is a pure function of the object's fields: it leaves the
object unchanged, its only effect on the output sink is appending its own
text, and two instances agreeing on dynamic type, name and radii produce the
same text. -/
theorem draw_pure (o o' : Obj) (sink : List String) :
    (drawTo o sink).1 = o
    ∧ (drawTo o sink).2 = sink ++ [Obj.draw o]
    ∧ (fieldsOf o = fieldsOf o' → Obj.draw o = Obj.draw o') := by
  refine ⟨rfl, rfl, ?_⟩
  intro h
  cases o <;> cases o' <;>
    simp_all [fieldsOf, Obj.tag, Obj.name, Obj.xRadius, Obj.yRadius]

/-- Witness for C9: two separately written `Circle` values with equal
fields. -/
theorem draw_pure_witness :
    fieldsOf circle1 = fieldsOf (Obj.circle "Circle1" (mkRat 33 10))
    ∧ Obj.draw circle1 = Obj.draw (Obj.circle "Circle1" (mkRat 33 10)) :=
  ⟨rfl, (draw_pure circle1 (Obj.circle "Circle1" (mkRat 33 10)) []).2.2 rfl⟩

/-- C10: a non-owning base-typed handle — the raw `Shape *` taken by
`draw_shape` or the `const Shape &` taken by `draw_shape_v1` — dispatches
`draw()` to the most-derived override exactly as the owning and shared
handles do, for every instance and every declared static type. -/
theorem nonowning_handles_dispatch (t : Ty) (o : Obj) :
    draw_shape ⟨t, o⟩ = mostDerivedOutput o
    ∧ draw_shape_v1 ⟨t, o⟩ = mostDerivedOutput o
    ∧ draw_shape ⟨Ty.shape, o⟩ = UniqueHandle.drawV ⟨0, o⟩
    ∧ (SharedObj.mk o 1).deref.map Obj.draw = some (draw_shape_v1 ⟨Ty.shape, o⟩) :=
  ⟨draw_eq_mostDerivedOutput o, draw_eq_mostDerivedOutput o, rfl, rfl⟩

/-- Witness for C10 at the driver's `circle1`. -/
theorem nonowning_handles_dispatch_witness :
    draw_shape ⟨Ty.shape, circle1⟩ = mostDerivedOutput circle1
    ∧ draw_shape_v1 ⟨Ty.shape, circle1⟩ = mostDerivedOutput circle1 :=
  ⟨(nonowning_handles_dispatch Ty.shape circle1).1,
   (nonowning_handles_dispatch Ty.shape circle1).2.1⟩
